import Mathlib

/-!
Shallow embedding of the xjump simulation core (src/xjump.c, with src/main.c as
the earlier revision of the same engine) and proofs about it.

Machine integers are modelled as `Int` (C `int`, `int64_t`) and as `Nat`
reduced modulo `2^32` / `2^64` (C `uint32_t`, `uint64_t`).  C's `/` and `%` on
`int` truncate towards zero, so they are rendered as `Int.tdiv` / `Int.tmod`.
The few `while` loops of the engine are rendered with an explicit fuel
argument that provably dominates the number of iterations the C loop performs.
-/

set_option maxRecDepth 10000

-- ## Helper functions (src/xjump.c lines 45-60)

/-- C helper `mod(n, m)`: `r = n % m; return r >= 0 ? r : r + m;`.
The `assert(m > 0)` is modelled separately by `cModChecked`. -/
def cMod (n m : Int) : Int :=
  let r := Int.tmod n m
  if r ≥ 0 then r else r + m

/-- Checked variant of `mod`: the C code asserts `m > 0`. -/
def cModChecked (n m : Int) : Option Int :=
  if 0 < m then some (cMod n m) else none

-- ## Random number generator (src/xjump.c lines 179-211)

/-- Size of the `uint32_t` value space. -/
def U32 : Nat := 2 ^ 32

/-- Size of the `uint64_t` value space. -/
def U64 : Nat := 2 ^ 64

/-- The PCG generator state: globals `pcgState` and `pcgSeq`, both `uint64_t`,
kept as naturals `< 2^64`. -/
structure Rng where
  state : Nat
  seq : Nat
deriving DecidableEq, Repr

/-- `pcg32_init(seed)`: `pcgState = seed[0]; pcgSeq = (seed[1] << 1) | 1;`.
The two 64-bit seed words are modelled as naturals reduced mod `2^64`. -/
def pcg32_init (seed : Nat × Nat) : Rng :=
  { state := seed.1 % U64, seq := ((seed.2 <<< 1) % U64) ||| 1 }

/-- `pcg32_next()`: one PCG-XSH-RR step.  `(-rot) & 31` on `uint32_t` is
`(2^32 - rot) &&& 31`. -/
def pcg32_next (g : Rng) : Nat × Rng :=
  let state := (g.state * 6364136223846793005 + g.seq) % U64
  let xorshifted := (((state >>> 18) ^^^ state) >>> 27) % U32
  let rot := state >>> 59
  let out := ((xorshifted >>> rot) ||| ((xorshifted <<< ((U32 - rot) &&& 31)) % U32)) % U32
  (out, { state := state, seq := g.seq })

/-- `pcg32_bounded(n)`: rejection sampling `do { x = pcg32_next(); r = x % n; }
while (x - r > (-n));`.  The C loop has no a-priori iteration bound, so it is
modelled with fuel; when the fuel runs out the last draw's remainder is
returned, which keeps the function total, deterministic and in range `[0,n)`. -/
def pcg32_bounded (n : Nat) : Nat → Rng → Nat × Rng
  | 0, g =>
    let xg := pcg32_next g
    (xg.1 % n, xg.2)
  | fuel + 1, g =>
    let xg := pcg32_next g
    let r := xg.1 % n
    if xg.1 - r > (U32 - n) % U32 then pcg32_bounded n fuel xg.2 else (r, xg.2)

/-- Fuel used for the rejection loop at every call site. -/
def RND_FUEL : Nat := 64

/-- `rnd(a, b)`: `a + pcg32_bounded(b - a + 1)`, uniform on `[a,b]`. -/
def rnd (a b : Nat) (g : Rng) : Nat × Rng :=
  let rg := pcg32_bounded (b - a + 1) RND_FUEL g
  (a + rg.1, rg.2)

/-- Checked variant of `pcg32_bounded`: `x % n` is undefined for `n = 0`. -/
def pcg32_boundedChecked (n : Nat) (fuel : Nat) (g : Rng) : Option (Nat × Rng) :=
  if n = 0 then none else some (pcg32_bounded n fuel g)

/-- Checked variant of `rnd`. -/
def rndChecked (a b : Nat) (g : Rng) : Option (Nat × Rng) :=
  (pcg32_boundedChecked (b - a + 1) RND_FUEL g).map (fun rg => (a + rg.1, rg.2))

-- ## Joystick state (src/xjump.c lines 328-421)

/-- Enum `LeftRight`. -/
inductive LeftRight where
  | LR_NEUTRAL
  | LR_LEFT
  | LR_RIGHT
deriving DecidableEq, Repr

/-- Enum `Input`. -/
inductive Input where
  | INPUT_JUMP
  | INPUT_LEFT
  | INPUT_RIGHT
  | INPUT_OTHER
deriving DecidableEq, Repr

/-- The physical keys that `translateHotkey` distinguishes (SDL scancodes). -/
inductive Key where
  | UpArrow | DownArrow | KeyW | KeyS | Space | KP8 | KP5 | KP2
  | LeftArrow | KeyA | KP4
  | RightArrow | KeyD | KP6
  | Unbound
deriving DecidableEq, Repr

/-- `translateHotkey` (src/xjump.c lines 346-372). -/
def translateHotkey (key : Key) : Input :=
  match key with
  | Key.UpArrow | Key.DownArrow | Key.KeyW | Key.KeyS | Key.Space
  | Key.KP8 | Key.KP5 | Key.KP2 => Input.INPUT_JUMP
  | Key.LeftArrow | Key.KeyA | Key.KP4 => Input.INPUT_LEFT
  | Key.RightArrow | Key.KeyD | Key.KP6 => Input.INPUT_RIGHT
  | Key.Unbound => Input.INPUT_OTHER

/-- The joystick state `K`: `horizDirection` plus the `isPressing` booleans for
the three used slots (the `INPUT_OTHER` slot is never read nor written in
src/xjump.c because both handlers guard on `input != INPUT_OTHER`). -/
structure KState where
  horizDirection : LeftRight
  pressJump : Bool
  pressLeft : Bool
  pressRight : Bool
deriving DecidableEq, Repr

/-- `init_input()`. -/
def init_input : KState :=
  { horizDirection := LeftRight.LR_NEUTRAL,
    pressJump := false, pressLeft := false, pressRight := false }

/-- `input_keydown` (src/xjump.c lines 383-401). -/
def input_keydown (key : Key) (k : KState) : KState :=
  match translateHotkey key with
  | Input.INPUT_JUMP => { k with pressJump := true }
  | Input.INPUT_LEFT => { k with pressLeft := true, horizDirection := LeftRight.LR_LEFT }
  | Input.INPUT_RIGHT => { k with pressRight := true, horizDirection := LeftRight.LR_RIGHT }
  | Input.INPUT_OTHER => k

/-- `input_keyup` (src/xjump.c lines 403-421). -/
def input_keyup (key : Key) (k : KState) : KState :=
  match translateHotkey key with
  | Input.INPUT_JUMP => { k with pressJump := false }
  | Input.INPUT_LEFT =>
    { k with pressLeft := false,
             horizDirection := if k.pressRight then LeftRight.LR_RIGHT else LeftRight.LR_NEUTRAL }
  | Input.INPUT_RIGHT =>
    { k with pressRight := false,
             horizDirection := if k.pressLeft then LeftRight.LR_LEFT else LeftRight.LR_NEUTRAL }
  | Input.INPUT_OTHER => k

-- ## Game constants (src/xjump.c lines 445-461)

/-- `S`: size of a sprite tile in pixels. -/
def S : Int := 16

/-- `R`: size of the player sprite in pixels. -/
def R : Int := 32

/-- `FIELD_W`: width of the playing field in tiles. -/
def FIELD_W : Int := 32

/-- `FIELD_H`: height of the playing field in tiles. -/
def FIELD_H : Int := 24

/-- `NFLOORS`: number of floors held in memory. -/
def NFLOORS : Int := 64

/-- `GAME_SPEED`: milliseconds per simulation frame. -/
def GAME_SPEED : Int := 25

/-- `MAX_SCROLL_SPEED`. -/
def MAX_SCROLL_SPEED : Int := 5000

/-- `SCROLL_THRESHOLD`. -/
def SCROLL_THRESHOLD : Int := 20000

/-- `leftLimit = S`. -/
def leftLimit : Int := S

/-- `rightLimit = (FIELD_W-1)*S - R`. -/
def rightLimit : Int := (FIELD_W - 1) * S - R

/-- `topLimit = 5*S`. -/
def topLimit : Int := 5 * S

/-- `botLimit = FIELD_H*S`. -/
def botLimit : Int := FIELD_H * S

-- ## Game state (src/xjump.c lines 463-494)

/-- `Floor`: inclusive tile-column bounds of a platform. -/
structure Floor where
  left : Int
  right : Int
deriving DecidableEq, Repr

/-- The global game struct `G`, together with the RNG globals (which are
mutated only through `rnd` calls made by the game logic). -/
structure GState where
  score : Int
  x : Int
  y : Int
  vx : Int
  vy : Int
  jump : Int
  isStanding : Bool
  isFacingRight : Bool
  isIdleVariant : Bool
  idleCount : Int
  hasStarted : Bool
  floorOffset : Int
  forcedScroll : Int
  scrollCount : Int
  scrollSpeed : Int
  fpos : Int
  next_floor : Int
  floors : List Floor
  rng : Rng
deriving DecidableEq, Repr

/-- `get_floor(n)` (read): `G.floors[mod(n, NFLOORS)]`. -/
def get_floor (s : GState) (n : Int) : Floor :=
  s.floors.getD (cMod n 64).toNat ⟨0, 0⟩

/-- `*get_floor(n) = f` (write). -/
def put_floor (s : GState) (n : Int) (f : Floor) : GState :=
  { s with floors := s.floors.set (cMod n 64).toNat f }

/-- `generate_floor()` (src/xjump.c lines 501-524).  The four RNG draws happen
in source order: `rnd(0,1)`, `rnd(5,9)`, then `rnd(2,4)` for the left extent
and `rnd(2,4)` for the right extent. -/
def generate_floor (s : GState) : GState :=
  let n := s.next_floor
  let s1 := { s with next_floor := s.next_floor + 1 }
  if Int.tmod n 250 = 0 then
    put_floor s1 n ⟨1, 30⟩
  else if Int.tmod n 5 = 0 then
    let r1 := rnd 0 1 s1.rng
    let sign : Int := if r1.1 ≠ 0 then 1 else -1
    let r2 := rnd 5 9 r1.2
    let fpos := cMod (s1.fpos + sign * (r2.1 : Int)) 22
    let r3 := rnd 2 4 r2.2
    let r4 := rnd 2 4 r3.2
    put_floor { s1 with fpos := fpos, rng := r4.2 } n
      ⟨fpos + 5 - (r3.1 : Int), fpos + 5 + (r4.1 : Int)⟩
  else
    put_floor s1 n ⟨-10, -20⟩

/-- `init_game()` (src/xjump.c lines 526-552).  The C globals are
zero-initialized, so the floor array starts as 64 copies of `{0, 0}`. -/
def init_game (g : Rng) : GState :=
  let r := rnd 0 21 g
  let s0 : GState :=
    { score := 0,
      x := (FIELD_W / 2) * S - R / 2, y := (FIELD_H - 4) * S - R,
      vx := 0, vy := 0, jump := 0,
      isStanding := true, isFacingRight := false, isIdleVariant := false, idleCount := 0,
      hasStarted := false, floorOffset := 20, forcedScroll := 0,
      scrollCount := 0, scrollSpeed := 0,
      fpos := (r.1 : Int), next_floor := -3,
      floors := List.replicate 64 ⟨0, 0⟩, rng := r.2 }
  (List.range 64).foldl (fun s _ => generate_floor s) s0

/-- `scroll()` (src/xjump.c lines 554-562). -/
def scroll (s : GState) : GState :=
  let s1 := generate_floor s
  let s2 := { s1 with floorOffset := s1.floorOffset + 1, y := s1.y + S }
  if s2.forcedScroll ≥ S then { s2 with forcedScroll := s2.forcedScroll - S } else s2

/-- `isStanding(hx, hy)` (src/xjump.c lines 564-578); identical logic in
src/main.c lines 421-435 (which reads `G.x`/`G.y` directly). -/
def isStanding (s : GState) (hx hy : Int) : Bool :=
  if s.vy < 0 then
    false
  else
    let y := Int.tdiv (hy + R) S
    if y ≥ FIELD_H then
      false
    else
      let fl := get_floor s (s.floorOffset - y)
      decide (fl.left * S - 24 ≤ hx ∧ hx ≤ fl.right * S + 8)

/-- `collideWithFloor(hy) = (hy / S) * S` (src/xjump.c lines 580-582). -/
def collideWithFloor (hy : Int) : Int :=
  Int.tdiv hy S * S

-- ## One simulation tick: `updateGame()` (src/xjump.c lines 584-687)
-- The body is split into the successive phases of the C function, in source
-- order, to keep the proofs modular.

/-- `G.x += G.vx / 2; G.y += G.vy;`. -/
def phaseIntegrate (s : GState) : GState :=
  { s with x := s.x + Int.tdiv s.vx 2, y := s.y + s.vy }

/-- Wall collisions (src/xjump.c lines 594-602): two successive `if`s; note
the second one reads the `x`/`vx` possibly updated by the first. -/
def phaseWalls (s : GState) : GState :=
  let s1 :=
    if s.x < leftLimit ∧ s.vx ≤ 0 then
      { s with x := leftLimit + Int.tdiv (max 0 (leftLimit - s.x - 2)) 2,
               vx := Int.tdiv (-s.vx) 2 }
    else s
  if s1.x > rightLimit ∧ s1.vx ≥ 0 then
    { s1 with x := rightLimit - Int.tdiv (max 0 (s1.x - rightLimit - 2)) 2,
              vx := Int.tdiv (-s1.vx) 2 }
  else s1

/-- Floor collision, scoring, idle animation and jump initiation
(src/xjump.c lines 604-630). -/
def phaseFloors (k : KState) (s : GState) : GState :=
  let stand := isStanding s s.x s.y
  let s1 := { s with isStanding := stand }
  if stand then
    let s2 := { s1 with y := collideWithFloor s1.y, vy := 0 }
    let n := Int.tdiv (s2.floorOffset - Int.tdiv (s2.y + R) S) 5
    let s3 := if n > s2.score then { s2 with score := n } else s2
    let s4 :=
      if s3.idleCount + 1 ≥ 5 then
        { s3 with isIdleVariant := !s3.isIdleVariant, idleCount := 0 }
      else
        { s3 with idleCount := s3.idleCount + 1 }
    if k.pressJump then
      let s5 := { s4 with jump := Int.tdiv |s4.vx| 4 + 7 }
      let s6 := { s5 with vy := Int.tdiv (-s5.jump) 2 - 12, isStanding := true }
      if !s6.hasStarted then { s6 with hasStarted := true, scrollSpeed := 200 } else s6
    else s4
  else s1

/-- Horizontal acceleration (src/xjump.c lines 632-649). -/
def phaseHoriz (k : KState) (s : GState) : GState :=
  let accelx : Int := if s.isStanding then 3 else 2
  match k.horizDirection with
  | LeftRight.LR_LEFT => { s with vx := max (s.vx - accelx) (-32), isFacingRight := false }
  | LeftRight.LR_RIGHT => { s with vx := min (s.vx + accelx) 32, isFacingRight := true }
  | LeftRight.LR_NEUTRAL =>
    if s.isStanding then
      if s.vx < -2 then { s with vx := s.vx + 3 }
      else if s.vx > 2 then { s with vx := s.vx - 3 }
      else { s with vx := 0 }
    else s

/-- Vertical dynamics while airborne (src/xjump.c lines 651-659). -/
def phaseVert (k : KState) (s : GState) : GState :=
  if !s.isStanding then
    if s.jump > 0 then
      { s with vy := Int.tdiv (-s.jump) 2 - 12,
               jump := if k.pressJump then s.jump - 1 else 0 }
    else
      { s with vy := min (s.vy + 2) 16, jump := 0 }
  else s

/-- `while (G.scrollCount > SCROLL_THRESHOLD) { G.scrollCount -= SCROLL_THRESHOLD; scroll(); }`
with fuel; `scroll` itself never touches `scrollCount`, so each iteration
strictly decreases it by `SCROLL_THRESHOLD`. -/
def scrollLoop : Nat → GState → GState
  | 0, s => s
  | fuel + 1, s =>
    if s.scrollCount > SCROLL_THRESHOLD then
      scrollLoop fuel (scroll { s with scrollCount := s.scrollCount - SCROLL_THRESHOLD })
    else s

/-- Scroll-energy accumulation plus the discrete scroll loop
(src/xjump.c lines 661-671).  `s.scrollCount.toNat` dominates the number of
loop iterations, which is at most `scrollCount / SCROLL_THRESHOLD`. -/
def phaseScroll (s : GState) : GState :=
  let s1 :=
    if s.hasStarted then
      let ss := min MAX_SCROLL_SPEED (s.scrollSpeed + 1)
      { s with scrollSpeed := ss, scrollCount := s.scrollCount + ss }
    else s
  scrollLoop s1.scrollCount.toNat s1

/-- `while (G.y < topLimit) scroll();` with fuel; `scroll` adds `S = 16` to
`y`, so `(topLimit - y).toNat` dominates the number of iterations. -/
def hardScrollLoop : Nat → GState → GState
  | 0, s => s
  | fuel + 1, s => if s.y < topLimit then hardScrollLoop fuel (scroll s) else s

/-- Forced scroll in hard-scroll mode (src/xjump.c lines 676-680). -/
def phaseForced (isSoftScroll : Bool) (s : GState) : GState :=
  if !isSoftScroll ∧ !s.isStanding then
    hardScrollLoop (topLimit - s.y).toNat s
  else s

/-- `updateGame()`: one simulation tick.  Returns the new state and the
game-over signal `G.y + G.forcedScroll >= botLimit`. -/
def updateGame (isSoftScroll : Bool) (k : KState) (s : GState) : GState × Bool :=
  let s7 :=
    phaseForced isSoftScroll
      (phaseScroll (phaseVert k (phaseHoriz k (phaseFloors k (phaseWalls (phaseIntegrate s))))))
  (s7, decide (s7.y + s7.forcedScroll ≥ botLimit))

-- ## Arithmetic helper lemmas

/-- Lower bound of truncating remainder by a positive modulus. -/
theorem neg_lt_tmod (a : Int) {b : Int} (hb : 0 < b) : -b < Int.tmod a b := by
  cases a with
  | ofNat m =>
    have h : (0 : Int) ≤ (Int.ofNat m).tmod b :=
      Int.tmod_nonneg b (by simp [Int.ofNat_eq_coe])
    omega
  | negSucc m =>
    cases b with
    | ofNat n =>
      have hn : 0 < n := by rw [Int.ofNat_eq_coe] at hb; omega
      have h : (m + 1) % n < n := Nat.mod_lt _ hn
      have heq : (Int.negSucc m).tmod (Int.ofNat n) = -(((m + 1) % n : Nat) : Int) := rfl
      rw [heq, Int.ofNat_eq_coe]
      omega
    | negSucc n =>
      rw [Int.negSucc_eq] at hb
      omega

/-- The C helper `mod` lands in `[0, m)` whenever its assertion `m > 0` holds. -/
theorem cMod_bounds (n : Int) {m : Int} (hm : 0 < m) :
    0 ≤ cMod n m ∧ cMod n m < m := by
  have h1 := Int.tmod_lt_of_pos n hm
  have h2 := neg_lt_tmod n hm
  simp only [cMod]
  split <;> omega

/-- Reading back an in-range write into a list. -/
theorem getD_set_self {α : Type} (l : List α) (i : Nat) (a d : α) (h : i < l.length) :
    (l.set i a).getD i d = a := by
  induction l generalizing i with
  | nil => simp at h
  | cons hd tl ih =>
    cases i with
    | zero => rfl
    | succ j =>
      rw [List.set_cons_succ, List.getD_cons_succ]
      exact ih j (by simpa using h)

/-- `List.set` preserves length (restated for convenience). -/
theorem length_set {α : Type} (l : List α) (i : Nat) (a : α) :
    (l.set i a).length = l.length := List.length_set l i a

/-- `pcg32_bounded` stays in range for a positive bound, with any fuel. -/
theorem pcg32_bounded_lt (n : Nat) (hn : 0 < n) :
    ∀ fuel g, (pcg32_bounded n fuel g).1 < n := by
  intro fuel
  induction fuel with
  | zero => intro g; exact Nat.mod_lt _ hn
  | succ f ih =>
    intro g
    simp only [pcg32_bounded]
    split
    · exact ih _
    · exact Nat.mod_lt _ hn

/-- `rnd a b` lands in `[a, b]` when `a ≤ b`. -/
theorem rnd_bounds {a b : Nat} (hab : a ≤ b) (g : Rng) :
    a ≤ (rnd a b g).1 ∧ (rnd a b g).1 ≤ b := by
  have h := pcg32_bounded_lt (b - a + 1) (by omega) RND_FUEL g
  simp only [rnd]
  omega

-- ## Event scripts and the main-loop tick driver (src/xjump.c lines 1064-1166)

/-- A raw key event: which physical key, and whether it was pressed (`true`,
`SDL_KEYDOWN`) or released (`false`, `SDL_KEYUP`). -/
def KeyEvent := Key × Bool

instance : DecidableEq KeyEvent := instDecidableEqProd

/-- Apply one raw key event to the joystick state, as the event loop does. -/
def applyEvent (k : KState) (e : KeyEvent) : KState :=
  if e.2 then input_keydown e.1 k else input_keyup e.1 k

/-- Apply a sequence of raw key events in order. -/
def applyEvents (evs : List KeyEvent) (k : KState) : KState :=
  evs.foldl applyEvent k

/-- Whether a physical key is held after an event sequence: its most recent
event, if any, was a key-down. -/
def heldAfter (evs : List KeyEvent) (key : Key) : Bool :=
  evs.foldl (fun acc e => if e.1 = key then e.2 else acc) false

/-- All physical keys the embedding distinguishes. -/
def allKeys : List Key :=
  [Key.UpArrow, Key.DownArrow, Key.KeyW, Key.KeyS, Key.Space, Key.KP8, Key.KP5, Key.KP2,
   Key.LeftArrow, Key.KeyA, Key.KP4, Key.RightArrow, Key.KeyD, Key.KP6, Key.Unbound]

/-- Whether at least one jump-bound key is held after an event sequence. -/
def jumpHeldAfter (evs : List KeyEvent) : Bool :=
  allKeys.any (fun key => translateHotkey key = Input.INPUT_JUMP && heldAfter evs key)

/-- The value `isPressing[INPUT_JUMP]` actually tracks: the polarity of the
most recent event on a jump-bound key (starting from `b0`). -/
def lastJumpDown (evs : List KeyEvent) (b0 : Bool) : Bool :=
  evs.foldl (fun acc e => if translateHotkey e.1 = Input.INPUT_JUMP then e.2 else acc) b0

/-- One item of a replay script: a key event delivered to the input handlers,
or a number of consecutive simulation ticks. -/
inductive Ev where
  | key : Key → Bool → Ev
  | ticks : Nat → Ev
deriving DecidableEq, Repr

/-- The part of the app state that the `STATE_RUNNING` simulation loop
touches: the game struct, the joystick struct and whether we are still in
`STATE_RUNNING` (as opposed to `STATE_GAMEOVER`). -/
structure Session where
  g : GState
  k : KState
  running : Bool
deriving DecidableEq, Repr

/-- One observation of the trajectory: `(x, y, vx, vy, score, running)`. -/
def observe (ss : Session) : Int × Int × Int × Int × Int × Bool :=
  (ss.g.x, ss.g.y, ss.g.vx, ss.g.vy, ss.g.score, ss.running)

/-- One `STATE_RUNNING` iteration of the main loop: run `updateGame` and on a
game-over signal transition out of `STATE_RUNNING` (src/xjump.c lines
1146-1153).  Ticks do nothing once the game is over. -/
def sessionTick (ss : Session) : Session :=
  if ss.running then
    let r := updateGame true ss.k ss.g
    { ss with g := r.1, running := !r.2 }
  else ss

/-- Run `n` consecutive ticks, recording one observation per tick. -/
def sessionTicks : Nat → Session → Session × List (Int × Int × Int × Int × Int × Bool)
  | 0, ss => (ss, [])
  | n + 1, ss =>
    let ss1 := sessionTick ss
    let r := sessionTicks n ss1
    (r.1, observe ss1 :: r.2)

/-- Run one script item. -/
def runEv (ss : Session) : Ev → Session × List (Int × Int × Int × Int × Int × Bool)
  | Ev.key key down => ({ ss with k := applyEvent ss.k (key, down) }, [])
  | Ev.ticks n => sessionTicks n ss

/-- Replay a whole session: seed the PCG, initialize input and game exactly as
`main()` does, then fold the script, concatenating the per-tick trajectory. -/
def runScript (seed : Nat × Nat) (script : List Ev) :
    Session × List (Int × Int × Int × Int × Int × Bool) :=
  let g0 := init_game (pcg32_init seed)
  script.foldl
    (fun acc e =>
      let r := runEv acc.1 e
      (r.1, acc.2 ++ r.2))
    ({ g := g0, k := init_input, running := true }, [])

/-- Run a list of per-tick input states (an arbitrary tick sequence). -/
def runTicks (isSoftScroll : Bool) (ks : List KState) (s : GState) : GState :=
  ks.foldl (fun s k => (updateGame isSoftScroll k s).1) s

/-- One `STATE_RUNNING` main-loop frame together with the score reported to
the highscore collaborator: `state_set(STATE_GAMEOVER)` calls
`highscore_update(G.score)` exactly when `updateGame` signals game over
(src/xjump.c lines 879-882 and 1146-1153). -/
def runningFrame (isSoftScroll : Bool) (k : KState) (s : GState) :
    GState × Bool × Option Int :=
  let r := updateGame isSoftScroll k s
  (r.1, r.2, if r.2 then some r.1.score else none)

-- ## Soft-scroll render-time interpolation (src/xjump.c lines 1226-1250, 1288-1294)

/-- The read-only part of the soft-scroll interpolation: predicted hero
position, derived standing flag and predicted screen position, for elapsed
time `dt` since the last tick (src/xjump.c lines 1231-1242). -/
structure Interp where
  hx : Int
  hy : Int
  stand : Bool
  sy : Int
deriving DecidableEq, Repr

/-- Compute the interpolated coordinates (before the forced-scroll branch). -/
def interpolate (dt : Int) (s : GState) : Interp :=
  let hx0 := s.x + Int.tdiv (Int.tdiv s.vx 2 * dt) GAME_SPEED
  let hx1 := if hx0 < leftLimit then leftLimit else hx0
  let hx := if hx1 > rightLimit then rightLimit else hx1
  let hy0 := s.y + Int.tdiv (s.vy * dt) GAME_SPEED
  let stand := isStanding s hx hy0
  let hy := if stand then collideWithFloor hy0 else hy0
  let c := s.scrollCount + Int.tdiv (dt * s.scrollSpeed) GAME_SPEED
  let sy := hy + s.forcedScroll + Int.tdiv (S * c) SCROLL_THRESHOLD
  { hx := hx, hy := hy, stand := stand, sy := sy }

/-- `while (G.forcedScroll >= S) scroll();` from the render loop
(src/xjump.c lines 1288-1294), with fuel; `scroll` subtracts `S` from
`forcedScroll` whenever it is `≥ S`, so `forcedScroll.toNat` dominates the
iteration count. -/
def renderScrollLoop : Nat → GState → GState
  | 0, s => s
  | fuel + 1, s => if s.forcedScroll ≥ S then renderScrollLoop fuel (scroll s) else s

/-- One full soft-scroll render pass over the game state: the interpolation
block (including its forced-scroll branch, which writes `G.forcedScroll` and
`G.scrollCount`) followed by the deferred `scroll()` loop that runs after the
floors are drawn.  Returns the updated state and `(sx, sy, interpScroll)`. -/
def renderSoftFrame (dt : Int) (s : GState) : GState × (Int × Int × Int) :=
  let p := interpolate dt s
  let forced := !p.stand ∧ p.sy < topLimit
  let s1 := if forced then { s with forcedScroll := s.forcedScroll + (topLimit - p.sy),
                                    scrollCount := 0 } else s
  let sy := if forced then topLimit else p.sy
  (renderScrollLoop s1.forcedScroll.toNat s1, (p.hx, sy, sy - p.hy))

-- ## Field-preservation lemmas about the tick pipeline

theorem generate_floor_score (s : GState) : (generate_floor s).score = s.score := by
  simp only [generate_floor, put_floor]
  split
  · rfl
  split <;> rfl

theorem generate_floor_vx (s : GState) : (generate_floor s).vx = s.vx := by
  simp only [generate_floor, put_floor]
  split
  · rfl
  split <;> rfl

theorem generate_floor_standFlag (s : GState) :
    (generate_floor s).isStanding = s.isStanding := by
  simp only [generate_floor, put_floor]
  split
  · rfl
  split <;> rfl

theorem scroll_score (s : GState) : (scroll s).score = s.score := by
  simp only [scroll]
  split <;> simp [generate_floor_score]

theorem scroll_vx (s : GState) : (scroll s).vx = s.vx := by
  simp only [scroll]
  split <;> simp [generate_floor_vx]

theorem scroll_standFlag (s : GState) : (scroll s).isStanding = s.isStanding := by
  simp only [scroll]
  split <;> simp [generate_floor_standFlag]

theorem scrollLoop_score : ∀ fuel s, (scrollLoop fuel s).score = s.score := by
  intro fuel
  induction fuel with
  | zero => intro s; rfl
  | succ f ih =>
    intro s
    simp only [scrollLoop]
    split
    · rw [ih, scroll_score]
    · rfl

theorem scrollLoop_vx : ∀ fuel s, (scrollLoop fuel s).vx = s.vx := by
  intro fuel
  induction fuel with
  | zero => intro s; rfl
  | succ f ih =>
    intro s
    simp only [scrollLoop]
    split
    · rw [ih, scroll_vx]
    · rfl

theorem scrollLoop_standFlag : ∀ fuel s, (scrollLoop fuel s).isStanding = s.isStanding := by
  intro fuel
  induction fuel with
  | zero => intro s; rfl
  | succ f ih =>
    intro s
    simp only [scrollLoop]
    split
    · rw [ih, scroll_standFlag]
    · rfl

theorem hardScrollLoop_score : ∀ fuel s, (hardScrollLoop fuel s).score = s.score := by
  intro fuel
  induction fuel with
  | zero => intro s; rfl
  | succ f ih =>
    intro s
    simp only [hardScrollLoop]
    split
    · rw [ih, scroll_score]
    · rfl

theorem hardScrollLoop_vx : ∀ fuel s, (hardScrollLoop fuel s).vx = s.vx := by
  intro fuel
  induction fuel with
  | zero => intro s; rfl
  | succ f ih =>
    intro s
    simp only [hardScrollLoop]
    split
    · rw [ih, scroll_vx]
    · rfl

theorem hardScrollLoop_standFlag :
    ∀ fuel s, (hardScrollLoop fuel s).isStanding = s.isStanding := by
  intro fuel
  induction fuel with
  | zero => intro s; rfl
  | succ f ih =>
    intro s
    simp only [hardScrollLoop]
    split
    · rw [ih, scroll_standFlag]
    · rfl

theorem phaseScroll_score (s : GState) : (phaseScroll s).score = s.score := by
  simp only [phaseScroll]
  split <;> rw [scrollLoop_score]

theorem phaseScroll_vx (s : GState) : (phaseScroll s).vx = s.vx := by
  simp only [phaseScroll]
  split <;> rw [scrollLoop_vx]

theorem phaseScroll_standFlag (s : GState) : (phaseScroll s).isStanding = s.isStanding := by
  simp only [phaseScroll]
  split <;> rw [scrollLoop_standFlag]

theorem phaseForced_score (b : Bool) (s : GState) : (phaseForced b s).score = s.score := by
  simp only [phaseForced]
  split
  · rw [hardScrollLoop_score]
  · rfl

theorem phaseForced_vx (b : Bool) (s : GState) : (phaseForced b s).vx = s.vx := by
  simp only [phaseForced]
  split
  · rw [hardScrollLoop_vx]
  · rfl

theorem phaseForced_standFlag (b : Bool) (s : GState) :
    (phaseForced b s).isStanding = s.isStanding := by
  simp only [phaseForced]
  split
  · rw [hardScrollLoop_standFlag]
  · rfl

theorem phaseVert_score (k : KState) (s : GState) : (phaseVert k s).score = s.score := by
  simp only [phaseVert]
  split
  · split <;> rfl
  · rfl

theorem phaseVert_vx (k : KState) (s : GState) : (phaseVert k s).vx = s.vx := by
  simp only [phaseVert]
  split
  · split <;> rfl
  · rfl

theorem phaseVert_standFlag (k : KState) (s : GState) :
    (phaseVert k s).isStanding = s.isStanding := by
  simp only [phaseVert]
  split
  · split <;> rfl
  · rfl

theorem phaseHoriz_score (k : KState) (s : GState) : (phaseHoriz k s).score = s.score := by
  simp only [phaseHoriz]
  rcases k.horizDirection <;> simp
  split
  · split
    · rfl
    split <;> rfl
  · rfl

theorem phaseHoriz_standFlag (k : KState) (s : GState) :
    (phaseHoriz k s).isStanding = s.isStanding := by
  simp only [phaseHoriz]
  rcases k.horizDirection <;> simp
  split
  · split
    · rfl
    split <;> rfl
  · rfl


theorem phaseFloors_vx (k : KState) (s : GState) : (phaseFloors k s).vx = s.vx := by
  simp only [phaseFloors]
  repeat' split
  all_goals rfl

theorem phaseFloors_score_le (k : KState) (s : GState) :
    s.score ≤ (phaseFloors k s).score := by
  simp only [phaseFloors]
  repeat' split
  all_goals simp_all
  all_goals omega

/-- After the floor phase the stored `G.isStanding` flag equals the standing
predicate computed at the phase's entry (the jump branch only re-asserts
`true` in a branch where it is already `true`). -/
theorem phaseFloors_standFlag (k : KState) (s : GState) :
    (phaseFloors k s).isStanding = isStanding s s.x s.y := by
  simp only [phaseFloors]
  repeat' split
  all_goals simp_all

/-- The wall phase is the identity when the integrated `x` is inside the
corridor. -/
theorem phaseWalls_id (s : GState) (h1 : leftLimit ≤ s.x) (h2 : s.x ≤ rightLimit) :
    phaseWalls s = s := by
  simp only [phaseWalls]
  rw [if_neg (by omega : ¬(s.x < leftLimit ∧ s.vx ≤ 0))]
  rw [if_neg (by omega : ¬(s.x > rightLimit ∧ s.vx ≥ 0))]

/-- Holding Right while the standing flag is set accelerates by 3, clamped at
32. -/
theorem phaseHoriz_vx_right (k : KState) (s : GState)
    (hk : k.horizDirection = LeftRight.LR_RIGHT) (hs : s.isStanding = true) :
    (phaseHoriz k s).vx = min (s.vx + 3) 32 := by
  simp only [phaseHoriz, hk, hs]
  simp

theorem phaseWalls_score (s : GState) : (phaseWalls s).score = s.score := by
  simp only [phaseWalls]
  repeat' split
  all_goals rfl

/-- One tick never decreases the score. -/
theorem updateGame_score_le (isSoftScroll : Bool) (k : KState) (s : GState) :
    s.score ≤ (updateGame isSoftScroll k s).1.score := by
  simp only [updateGame]
  rw [phaseForced_score, phaseScroll_score, phaseVert_score, phaseHoriz_score]
  calc s.score = (phaseWalls (phaseIntegrate s)).score := by
        rw [phaseWalls_score]; rfl
    _ ≤ _ := phaseFloors_score_le _ _

-- ## Checked variant of the tick
-- Every partial primitive used during a tick is given a checked counterpart
-- that returns `none` exactly when its C precondition fails: `mod`'s
-- assertion `m > 0`, the `G.floors[...]` index being inside `[0, NFLOORS)`,
-- and `pcg32_bounded`'s implicit requirement `n != 0` (division by zero).

/-- Checked floor read: index must be in `[0, NFLOORS)`. -/
def get_floorChecked (s : GState) (n : Int) : Option Floor := do
  let i ← cModChecked n 64
  if 0 ≤ i ∧ i < 64 then some (s.floors.getD i.toNat ⟨0, 0⟩) else none

/-- Checked floor write: index must be in `[0, NFLOORS)`. -/
def put_floorChecked (s : GState) (n : Int) (f : Floor) : Option GState := do
  let i ← cModChecked n 64
  if 0 ≤ i ∧ i < 64 then some { s with floors := s.floors.set i.toNat f } else none

/-- Checked `generate_floor`. -/
def generate_floorChecked (s : GState) : Option GState := do
  let n := s.next_floor
  let s1 := { s with next_floor := s.next_floor + 1 }
  if Int.tmod n 250 = 0 then
    put_floorChecked s1 n ⟨1, 30⟩
  else if Int.tmod n 5 = 0 then do
    let r1 ← rndChecked 0 1 s1.rng
    let sign : Int := if r1.1 ≠ 0 then 1 else -1
    let r2 ← rndChecked 5 9 r1.2
    let fpos ← cModChecked (s1.fpos + sign * (r2.1 : Int)) 22
    let r3 ← rndChecked 2 4 r2.2
    let r4 ← rndChecked 2 4 r3.2
    put_floorChecked { s1 with fpos := fpos, rng := r4.2 } n
      ⟨fpos + 5 - (r3.1 : Int), fpos + 5 + (r4.1 : Int)⟩
  else
    put_floorChecked s1 n ⟨-10, -20⟩

/-- Checked `scroll`. -/
def scrollChecked (s : GState) : Option GState := do
  let s1 ← generate_floorChecked s
  let s2 := { s1 with floorOffset := s1.floorOffset + 1, y := s1.y + S }
  if s2.forcedScroll ≥ S then some { s2 with forcedScroll := s2.forcedScroll - S } else some s2

/-- Checked `isStanding`. -/
def isStandingChecked (s : GState) (hx hy : Int) : Option Bool :=
  if s.vy < 0 then
    some false
  else
    let y := Int.tdiv (hy + R) S
    if y ≥ FIELD_H then
      some false
    else do
      let fl ← get_floorChecked s (s.floorOffset - y)
      some (decide (fl.left * S - 24 ≤ hx ∧ hx ≤ fl.right * S + 8))

/-- Checked floor phase. -/
def phaseFloorsChecked (k : KState) (s : GState) : Option GState := do
  let stand ← isStandingChecked s s.x s.y
  let s1 := { s with isStanding := stand }
  if stand then
    let s2 := { s1 with y := collideWithFloor s1.y, vy := 0 }
    let n := Int.tdiv (s2.floorOffset - Int.tdiv (s2.y + R) S) 5
    let s3 := if n > s2.score then { s2 with score := n } else s2
    let s4 :=
      if s3.idleCount + 1 ≥ 5 then
        { s3 with isIdleVariant := !s3.isIdleVariant, idleCount := 0 }
      else
        { s3 with idleCount := s3.idleCount + 1 }
    if k.pressJump then
      let s5 := { s4 with jump := Int.tdiv |s4.vx| 4 + 7 }
      let s6 := { s5 with vy := Int.tdiv (-s5.jump) 2 - 12, isStanding := true }
      if !s6.hasStarted then some { s6 with hasStarted := true, scrollSpeed := 200 } else some s6
    else some s4
  else some s1

/-- Checked scroll loop. -/
def scrollLoopChecked : Nat → GState → Option GState
  | 0, s => some s
  | fuel + 1, s =>
    if s.scrollCount > SCROLL_THRESHOLD then do
      let s1 ← scrollChecked { s with scrollCount := s.scrollCount - SCROLL_THRESHOLD }
      scrollLoopChecked fuel s1
    else some s

/-- Checked scroll phase. -/
def phaseScrollChecked (s : GState) : Option GState :=
  let s1 :=
    if s.hasStarted then
      let ss := min MAX_SCROLL_SPEED (s.scrollSpeed + 1)
      { s with scrollSpeed := ss, scrollCount := s.scrollCount + ss }
    else s
  scrollLoopChecked s1.scrollCount.toNat s1

/-- Checked hard-scroll loop. -/
def hardScrollLoopChecked : Nat → GState → Option GState
  | 0, s => some s
  | fuel + 1, s =>
    if s.y < topLimit then do
      let s1 ← scrollChecked s
      hardScrollLoopChecked fuel s1
    else some s

/-- Checked forced-scroll phase. -/
def phaseForcedChecked (isSoftScroll : Bool) (s : GState) : Option GState :=
  if !isSoftScroll ∧ !s.isStanding then
    hardScrollLoopChecked (topLimit - s.y).toNat s
  else some s

/-- Checked `updateGame`: `none` would mean that some assertion or implicit
precondition inside the tick failed. -/
def updateGameChecked (isSoftScroll : Bool) (k : KState) (s : GState) :
    Option (GState × Bool) := do
  let s3 ← phaseFloorsChecked k (phaseWalls (phaseIntegrate s))
  let s6 ← phaseScrollChecked (phaseVert k (phaseHoriz k s3))
  let s7 ← phaseForcedChecked isSoftScroll s6
  some (s7, decide (s7.y + s7.forcedScroll ≥ botLimit))

-- ## The checked tick agrees with the plain tick

theorem cModChecked_eq (n : Int) {m : Int} (hm : 0 < m) :
    cModChecked n m = some (cMod n m) := by
  simp [cModChecked, hm]

theorem get_floorChecked_eq (s : GState) (n : Int) :
    get_floorChecked s n = some (get_floor s n) := by
  have h := cMod_bounds n (by norm_num : (0:Int) < 64)
  simp [get_floorChecked, cModChecked_eq n (by norm_num : (0:Int) < 64), get_floor, h]

theorem put_floorChecked_eq (s : GState) (n : Int) (f : Floor) :
    put_floorChecked s n f = some (put_floor s n f) := by
  have h := cMod_bounds n (by norm_num : (0:Int) < 64)
  simp [put_floorChecked, cModChecked_eq n (by norm_num : (0:Int) < 64), put_floor, h]

theorem rndChecked_eq {a b : Nat} (h : b - a + 1 ≠ 0) (g : Rng) :
    rndChecked a b g = some (rnd a b g) := by
  simp [rndChecked, pcg32_boundedChecked, rnd, h]

theorem rndChecked_eq01 (g : Rng) : rndChecked 0 1 g = some (rnd 0 1 g) :=
  rndChecked_eq (by norm_num) g

theorem rndChecked_eq59 (g : Rng) : rndChecked 5 9 g = some (rnd 5 9 g) :=
  rndChecked_eq (by norm_num) g

theorem rndChecked_eq24 (g : Rng) : rndChecked 2 4 g = some (rnd 2 4 g) :=
  rndChecked_eq (by norm_num) g

theorem cModChecked_eq22 (n : Int) : cModChecked n 22 = some (cMod n 22) :=
  cModChecked_eq n (by norm_num)

theorem generate_floorChecked_eq (s : GState) :
    generate_floorChecked s = some (generate_floor s) := by
  simp only [generate_floorChecked, generate_floor]
  split
  · rw [put_floorChecked_eq]
  split
  · simp only [rndChecked_eq01, rndChecked_eq59, rndChecked_eq24, cModChecked_eq22,
      put_floorChecked_eq, Option.bind_eq_bind, Option.some_bind]
  · rw [put_floorChecked_eq]

theorem scrollChecked_eq (s : GState) : scrollChecked s = some (scroll s) := by
  simp only [scrollChecked, scroll, generate_floorChecked_eq, Option.bind_eq_bind, Option.some_bind]
  split <;> simp_all

theorem scrollLoopChecked_eq : ∀ fuel s, scrollLoopChecked fuel s = some (scrollLoop fuel s) := by
  intro fuel
  induction fuel with
  | zero => intro s; rfl
  | succ f ih =>
    intro s
    simp only [scrollLoopChecked, scrollLoop]
    split
    · rw [scrollChecked_eq]
      simp only [Option.bind_eq_bind, Option.some_bind]
      exact ih _
    · rfl

theorem hardScrollLoopChecked_eq :
    ∀ fuel s, hardScrollLoopChecked fuel s = some (hardScrollLoop fuel s) := by
  intro fuel
  induction fuel with
  | zero => intro s; rfl
  | succ f ih =>
    intro s
    simp only [hardScrollLoopChecked, hardScrollLoop]
    split
    · rw [scrollChecked_eq]
      simp only [Option.bind_eq_bind, Option.some_bind]
      exact ih _
    · rfl

theorem isStandingChecked_eq (s : GState) (hx hy : Int) :
    isStandingChecked s hx hy = some (isStanding s hx hy) := by
  simp only [isStandingChecked, isStanding]
  split
  · rfl
  split
  · rfl
  · rw [get_floorChecked_eq]
    rfl

theorem phaseFloorsChecked_eq (k : KState) (s : GState) :
    phaseFloorsChecked k s = some (phaseFloors k s) := by
  simp only [phaseFloorsChecked, phaseFloors, isStandingChecked_eq, Option.bind_eq_bind, Option.some_bind]
  repeat' split
  all_goals simp_all

theorem phaseScrollChecked_eq (s : GState) :
    phaseScrollChecked s = some (phaseScroll s) := by
  simp only [phaseScrollChecked, phaseScroll]
  split <;> rw [scrollLoopChecked_eq]

theorem phaseForcedChecked_eq (b : Bool) (s : GState) :
    phaseForcedChecked b s = some (phaseForced b s) := by
  simp only [phaseForcedChecked, phaseForced]
  split
  · rw [hardScrollLoopChecked_eq]
  · rfl

-- ## Concrete states used by witnesses and counterexamples

/-- A 64-entry floor buffer whose rows are all full-width floors. -/
def floorsWide : List Floor := List.replicate 64 ⟨1, 30⟩

/-- A 64-entry floor buffer whose rows are all gap sentinels. -/
def floorsGap : List Floor := List.replicate 64 ⟨-10, -20⟩

/-- A simple standing state: the avatar at rest on row 22 of a tower of
full-width floors, scrolling not yet started. -/
def baseState : GState :=
  { score := 0, x := 240, y := 320, vx := 0, vy := 0, jump := 0,
    isStanding := true, isFacingRight := false, isIdleVariant := false, idleCount := 0,
    hasStarted := false, floorOffset := 20, forcedScroll := 0,
    scrollCount := 0, scrollSpeed := 0,
    fpos := 0, next_floor := 61, floors := floorsWide,
    rng := { state := 0x853c49e6748fea9b, seq := 0xda3e39cb94b95bdb } }

/-- The joystick state while Right alone is held. -/
def kRight : KState :=
  { horizDirection := LeftRight.LR_RIGHT,
    pressJump := false, pressLeft := false, pressRight := true }

/-- The trace of states obtained by ticking `i` times (soft scroll) with Right
held and no jump input. -/
def traceR (s : GState) : Nat → GState
  | 0 => s
  | i + 1 => (updateGame true kRight (traceR s i)).1

-- ## Supporting lemmas for the Scenario C analysis

/-- One Right-held tick updates `vx` to `min (vx + 3) 32`, provided the
integrated `x` stays inside the wall corridor and this tick ends standing. -/
theorem tickR_vx (s : GState)
    (hw1 : leftLimit ≤ s.x + Int.tdiv s.vx 2)
    (hw2 : s.x + Int.tdiv s.vx 2 ≤ rightLimit)
    (hst : (updateGame true kRight s).1.isStanding = true) :
    (updateGame true kRight s).1.vx = min (s.vx + 3) 32 := by
  have hwid : phaseWalls (phaseIntegrate s) = phaseIntegrate s :=
    phaseWalls_id (phaseIntegrate s) hw1 hw2
  have hst' : (phaseFloors kRight (phaseWalls (phaseIntegrate s))).isStanding = true := by
    simp only [updateGame, phaseForced_standFlag, phaseScroll_standFlag,
      phaseVert_standFlag, phaseHoriz_standFlag] at hst
    exact hst
  simp only [updateGame, phaseForced_vx, phaseScroll_vx, phaseVert_vx]
  rw [phaseHoriz_vx_right kRight _ rfl hst', phaseFloors_vx, hwid]
  rfl

/-- Along a Right-held standing trace that starts at rest and never touches a
wall, `vx` follows `min (3*i) 32`. -/
theorem traceR_vx (s : GState) (k : Nat) (h0 : s.vx = 0)
    (hw : ∀ i, i < k →
      leftLimit ≤ (traceR s i).x + Int.tdiv (traceR s i).vx 2 ∧
      (traceR s i).x + Int.tdiv (traceR s i).vx 2 ≤ rightLimit)
    (hst : ∀ i, i < k → (traceR s (i + 1)).isStanding = true) :
    ∀ i, i ≤ k → (traceR s i).vx = min (3 * (i : Int)) 32 := by
  intro i
  induction i with
  | zero =>
    intro _
    simp [traceR, h0]
  | succ j ih =>
    intro hjk
    have hj : j < k := by omega
    have hvx := tickR_vx (traceR s j) (hw j hj).1 (hw j hj).2 (hst j hj)
    have hprev := ih (by omega)
    show (updateGame true kRight (traceR s j)).1.vx = _
    rw [hvx, hprev]
    push_cast
    omega

-- ## Supporting lemmas for the render-interpolation analysis

/-- The deferred render scroll loop does nothing when `forcedScroll < S`. -/
theorem renderScrollLoop_id (fuel : Nat) (s : GState) (h : s.forcedScroll < S) :
    renderScrollLoop fuel s = s := by
  cases fuel with
  | zero => rfl
  | succ f =>
    simp only [renderScrollLoop]
    rw [if_neg (by omega)]

-- ## Supporting lemmas for the jump-intent analysis

/-- Effect of a single raw key event on `isPressing[INPUT_JUMP]`. -/
theorem applyEvent_pressJump (k : KState) (e : KeyEvent) :
    (applyEvent k e).pressJump =
      if translateHotkey e.1 = Input.INPUT_JUMP then e.2 else k.pressJump := by
  rcases e with ⟨key, down⟩
  cases down <;> cases h : translateHotkey key <;>
    simp [applyEvent, input_keydown, input_keyup, h]

/-- The jump-intent boolean after a key-event sequence equals the polarity of
the most recent jump-bound event. -/
theorem applyEvents_pressJump (evs : List KeyEvent) :
    ∀ k : KState, (applyEvents evs k).pressJump = lastJumpDown evs k.pressJump := by
  induction evs with
  | nil => intro k; rfl
  | cons e rest ih =>
    intro k
    show (applyEvents rest (applyEvent k e)).pressJump = _
    rw [ih (applyEvent k e), applyEvent_pressJump]
    rfl

-- ## Supporting lemmas for the floor-generation postcondition

/-- Reading a floor back right after writing it (with a full-size buffer). -/
theorem get_put_floor (s : GState) (n : Int) (f : Floor) (hlen : s.floors.length = 64) :
    get_floor (put_floor s n f) n = f := by
  have hb := cMod_bounds n (show (0:Int) < 64 by norm_num)
  simp only [get_floor, put_floor]
  apply getD_set_self
  omega

-- ## Claim theorems

/-- C1: Determinism of the simulation.  For every fixed RNG seed and fixed,
ordered script of input events interleaved with tick counts, any two replays
produce bit-identical final sessions and bit-identical per-tick trajectories
of `(x, y, vx, vy, score, state)`: `runScript` — built from `pcg32_init`,
`init_game`, the input handlers and `updateGame` — is a pure function of the
seed and the script, with all randomness drawn from the seeded PCG state
threaded through the game state. -/
theorem claim_determinism_replay (seed : Nat × Nat) (script : List Ev)
    (out1 out2 : Session × List (Int × Int × Int × Int × Int × Bool))
    (h1 : out1 = runScript seed script) (h2 : out2 = runScript seed script) :
    out1 = out2 := by
  rw [h1, h2]

/-- Witness for C1 at a concrete seed and script. -/
theorem claim_determinism_replay_witness :
    runScript (1, 2) [Ev.key Key.RightArrow true, Ev.ticks 2] =
      runScript (1, 2) [Ev.key Key.RightArrow true, Ev.ticks 2] :=
  claim_determinism_replay (1, 2) [Ev.key Key.RightArrow true, Ev.ticks 2] _ _ rfl rfl

/-- C6: Score monotonicity.  Over any sequence of simulation ticks (one
arbitrary input state per tick), the score never decreases: the only write to
`G.score` inside `updateGame` is guarded by `n > G.score`. -/
theorem claim_score_monotone (isSoftScroll : Bool) (ks : List KState) (s : GState) :
    s.score ≤ (runTicks isSoftScroll ks s).score := by
  induction ks generalizing s with
  | nil => exact le_refl _
  | cons k rest ih =>
    calc s.score ≤ (updateGame isSoftScroll k s).1.score := updateGame_score_le _ _ _
      _ ≤ _ := ih _

/-- C7: Game-over condition.  A tick signals game over exactly when, after the
tick's physics and scrolling, `G.y + G.forcedScroll >= botLimit`; and the
`STATE_RUNNING` frame reports the final score to the highscore collaborator
exactly on that signal. -/
theorem claim_game_over (isSoftScroll : Bool) (k : KState) (s : GState) :
    ((updateGame isSoftScroll k s).2 = true ↔
      botLimit ≤ (updateGame isSoftScroll k s).1.y + (updateGame isSoftScroll k s).1.forcedScroll) ∧
    ((runningFrame isSoftScroll k s).2.2 =
      if (updateGame isSoftScroll k s).2 then some ((updateGame isSoftScroll k s).1.score)
      else none) := by
  constructor
  · simp only [updateGame, decide_eq_true_iff, ge_iff_le]
  · rfl

/-- C8: Totality of tick arithmetic.  The checked tick — in which `mod`
returns `none` when its assertion `m > 0` fails, every floor-buffer access
returns `none` when the index `mod(n, NFLOORS)` leaves `[0, NFLOORS)`, and
`pcg32_bounded` returns `none` when invoked with `n = 0` — never fails, and
agrees with the plain tick on every state, so no division or remainder by
zero and no out-of-range indexing occurs during a tick. -/
theorem claim_tick_total (isSoftScroll : Bool) (k : KState) (s : GState) :
    updateGameChecked isSoftScroll k s = some (updateGame isSoftScroll k s) := by
  simp only [updateGameChecked, updateGame, phaseFloorsChecked_eq, phaseScrollChecked_eq,
    phaseForcedChecked_eq, Option.bind_eq_bind, Option.some_bind]

/-- C4 (counterexample): the claim's characterisation of `isStanding` without
a row bound fails.  At `hx = 100`, `hy = 352` (row `(352+32)/16 = 24`) over a
full-width floor, the code returns `false` because the row is outside the
visible field, while the claimed right-hand side (`vy >= 0` plus the interval
test, with no further conditions) is true. -/
theorem claim_standing_iff_counterexample :
    ¬(isStanding baseState 100 352 = true ↔
      (0 ≤ baseState.vy ∧
        (get_floor baseState (baseState.floorOffset - Int.tdiv (352 + R) S)).left * S - 24 ≤ 100 ∧
        100 ≤ (get_floor baseState (baseState.floorOffset - Int.tdiv (352 + R) S)).right * S + 8)) := by
  decide

/-- C4 (amended): `isStanding(x, y)` is true iff `vy >= 0`, the row
`(y+R)/S` is strictly below `FIELD_H`, and
`floor.left*S - 24 <= x <= floor.right*S + 8` for the floor stored at that
row — i.e. the claim holds once the additional visible-field condition
`(y+R)/S < FIELD_H` from the code is added. -/
theorem claim_standing_iff_amended (s : GState) (hx hy : Int) :
    isStanding s hx hy = true ↔
      (0 ≤ s.vy ∧ Int.tdiv (hy + R) S < FIELD_H ∧
        (get_floor s (s.floorOffset - Int.tdiv (hy + R) S)).left * S - 24 ≤ hx ∧
        hx ≤ (get_floor s (s.floorOffset - Int.tdiv (hy + R) S)).right * S + 8) := by
  simp only [isStanding]
  split_ifs with h1 h2
  · simp only [Bool.false_eq_true, false_iff]
    rintro ⟨hvy, -⟩
    omega
  · simp only [Bool.false_eq_true, false_iff]
    rintro ⟨-, hrow, -⟩
    omega
  · rw [decide_eq_true_iff]
    constructor
    · intro h
      exact ⟨by omega, by omega, h.1, h.2⟩
    · rintro ⟨-, -, ha, hb⟩
      exact ⟨ha, hb⟩

/-- C10: the avatar can never stand on a gap row.  Whenever the floor stored
for the avatar's row is the gap sentinel `{left = -10, right = -20}`,
`isStanding` is false for every `x`, because the acceptance interval
`[-10*S - 24, -20*S + 8] = [-184, -312]` is empty. -/
theorem claim_gap_not_standable (s : GState) (hx hy : Int)
    (hfl : get_floor s (s.floorOffset - Int.tdiv (hy + R) S) = ⟨-10, -20⟩) :
    isStanding s hx hy = false := by
  simp only [isStanding]
  split_ifs with h1 h2
  · rfl
  · rfl
  · rw [hfl]
    simp only [decide_eq_false_iff_not]
    rintro ⟨ha, hb⟩
    simp only [S] at ha hb
    omega

/-- Witness for C10 on a concrete all-gaps buffer. -/
theorem claim_gap_not_standable_witness :
    isStanding { baseState with floors := floorsGap } 0 0 = false :=
  claim_gap_not_standable { baseState with floors := floorsGap } 0 0 (by decide)

/-- C2 (counterexample): jump intent is not an OR over held jump keys.  Press
Up, press Space (both jump-bound), then release Up: Space is still held, yet
`isPressing[INPUT_JUMP]` is false, because the handlers track a single
boolean, not a press counter. -/
theorem claim_jump_debounce_counterexample :
    (applyEvents [(Key.UpArrow, true), (Key.Space, true), (Key.UpArrow, false)]
        init_input).pressJump = false ∧
    jumpHeldAfter [(Key.UpArrow, true), (Key.Space, true), (Key.UpArrow, false)] = true := by
  decide

/-- C2 (amended): after any sequence of key-down/key-up events,
`isPressing[INPUT_JUMP]` equals the polarity of the most recent event on a
jump-bound key (most-recent-event-wins, a plain boolean): releasing one of
two simultaneously held jump keys does clear the jump intent. -/
theorem claim_jump_debounce_amended (evs : List KeyEvent) (k0 : KState) :
    (applyEvents evs k0).pressJump = lastJumpDown evs k0.pressJump :=
  applyEvents_pressJump evs k0

/-- An airborne state near the top of the field: rendering it in soft-scroll
mode triggers the forced-scroll branch of the render loop. -/
def cexRenderState : GState :=
  { baseState with x := 100, y := 0, vy := -1, next_floor := 1 }

/-- C3 (counterexample): the soft-scroll render pass is not side-effect-free.
On an airborne state predicted above `topLimit` it adds `topLimit - sy` to
`G.forcedScroll`, zeroes `G.scrollCount`, and its deferred loop then calls
`scroll()` five times — advancing `G.floorOffset` from 20 to 25 and rewriting
the floor buffer — so evaluating it between two ticks changes `G`. -/
theorem claim_render_readonly_counterexample :
    (renderSoftFrame 0 cexRenderState).1.floorOffset = 25 ∧
    cexRenderState.floorOffset = 20 ∧
    (renderSoftFrame 0 cexRenderState).1 ≠ cexRenderState := by
  decide

/-- C3 (amended): the soft-scroll render pass leaves the game state `G` —
in particular `forcedScroll`, `scrollCount`, `floorOffset` and the floor
buffer — unchanged (and is therefore idempotent over repeated evaluations
between two ticks) provided its forced-scroll branch does not fire (the
predicted position is standing or not above `topLimit`) and
`forcedScroll < S`; when the branch fires it mutates the state. -/
theorem claim_render_readonly_amended (dt : Int) (s : GState)
    (h1 : (interpolate dt s).stand = true ∨ topLimit ≤ (interpolate dt s).sy)
    (h2 : s.forcedScroll < S) :
    (renderSoftFrame dt s).1 = s := by
  have hforced : ¬((!(interpolate dt s).stand) = true ∧ (interpolate dt s).sy < topLimit) := by
    rintro ⟨hns, hlt⟩
    rcases h1 with h | h
    · rw [h] at hns
      simp at hns
    · omega
  simp only [renderSoftFrame]
  rw [if_neg hforced]
  exact renderScrollLoop_id _ s h2

/-- Witness for C3 on a concrete standing state and a mid-frame time. -/
theorem claim_render_readonly_amended_witness :
    (renderSoftFrame 7 baseState).1 = baseState :=
  claim_render_readonly_amended 7 baseState (Or.inl (by decide)) (by decide)

/-- The floor emitted by one `generate_floor()` call, read back from the
buffer slot it was written to. -/
def emittedFloor (s : GState) : Floor :=
  get_floor (generate_floor s) s.next_floor

/-- C5: Floor-generation postcondition.  For a row counter `n = next_floor`
(with the persistent cursor in `[0,21]` and the 64-entry buffer):
if `n % 250 == 0` the emitted floor is the full-width `{1, 30}`;
otherwise if `n % 5 == 0` the emitted floor satisfies
`1 <= left <= right <= 30` with width `right - left + 1` in `[5, 9]` and the
updated cursor stays in `[0, 21]`; otherwise the emitted floor is the gap
sentinel with `left > right`. -/
theorem claim_floor_generation (s : GState) (hlen : s.floors.length = 64) :
    (Int.tmod s.next_floor 250 = 0 → emittedFloor s = ⟨1, 30⟩) ∧
    (Int.tmod s.next_floor 250 ≠ 0 → Int.tmod s.next_floor 5 = 0 →
      1 ≤ (emittedFloor s).left ∧ (emittedFloor s).left ≤ (emittedFloor s).right ∧
      (emittedFloor s).right ≤ 30 ∧
      5 ≤ (emittedFloor s).right - (emittedFloor s).left + 1 ∧
      (emittedFloor s).right - (emittedFloor s).left + 1 ≤ 9 ∧
      0 ≤ (generate_floor s).fpos ∧ (generate_floor s).fpos ≤ 21) ∧
    (Int.tmod s.next_floor 250 ≠ 0 → Int.tmod s.next_floor 5 ≠ 0 →
      (emittedFloor s).right < (emittedFloor s).left) := by
  have hb := cMod_bounds s.next_floor (show (0:Int) < 64 by norm_num)
  refine ⟨?_, ?_, ?_⟩
  · intro h250
    simp only [emittedFloor, generate_floor, if_pos h250, put_floor, get_floor]
    rw [getD_set_self _ _ _ _ (by omega)]
  · intro h250 h5
    simp only [emittedFloor, generate_floor, if_neg h250, if_pos h5, put_floor, get_floor]
    rw [getD_set_self _ _ _ _ (by omega)]
    dsimp only
    have hcm := cMod_bounds
      (s.fpos + (if (rnd 0 1 s.rng).1 ≠ 0 then 1 else -1) * ((rnd 5 9 (rnd 0 1 s.rng).2).1 : Int))
      (show (0:Int) < 22 by norm_num)
    have h3 := rnd_bounds (show 2 ≤ 4 by norm_num) (rnd 5 9 (rnd 0 1 s.rng).2).2
    have h4 := rnd_bounds (show 2 ≤ 4 by norm_num) (rnd 2 4 (rnd 5 9 (rnd 0 1 s.rng).2).2).2
    refine ⟨?_, ?_, ?_, ?_, ?_, ?_, ?_⟩ <;> omega
  · intro h250 h5
    simp only [emittedFloor, generate_floor, if_neg h250, if_neg h5, put_floor, get_floor]
    rw [getD_set_self _ _ _ _ (by omega)]
    norm_num

/-- Witness for C5 at a concrete state whose next row is `n = 5` (a platform
row), exercising the random-extent branch. -/
theorem claim_floor_generation_witness :
    1 ≤ (emittedFloor { baseState with next_floor := 5 }).left ∧
    (emittedFloor { baseState with next_floor := 5 }).left ≤
      (emittedFloor { baseState with next_floor := 5 }).right ∧
    (emittedFloor { baseState with next_floor := 5 }).right ≤ 30 ∧
    5 ≤ (emittedFloor { baseState with next_floor := 5 }).right -
      (emittedFloor { baseState with next_floor := 5 }).left + 1 ∧
    (emittedFloor { baseState with next_floor := 5 }).right -
      (emittedFloor { baseState with next_floor := 5 }).left + 1 ≤ 9 ∧
    0 ≤ (generate_floor { baseState with next_floor := 5 }).fpos ∧
    (generate_floor { baseState with next_floor := 5 }).fpos ≤ 21 :=
  (claim_floor_generation { baseState with next_floor := 5 } (by decide)).2.1
    (by decide) (by decide)

/-- C9 (counterexample): the clamp scenario fails for an arbitrary standing
start.  From the standing state `baseState` moved to `x = 463` (just inside
the right wall), with Right held, no jump, and the avatar standing after each
of the 11 ticks, the avatar bounces off the right wall and after the 11th
tick `vx` is not 32. -/
theorem claim_vx_clamp_counterexample :
    ({ baseState with x := 463 } : GState).isStanding = true ∧
    ({ baseState with x := 463 } : GState).vx = 0 ∧
    (∀ i, i < 11 → (traceR { baseState with x := 463 } (i + 1)).isStanding = true) ∧
    (traceR { baseState with x := 463 } 11).vx ≠ 32 := by
  decide

/-- C9 (amended): starting from rest (`vx = 0`), if Right is held
continuously with no jump input, the avatar remains standing after every
tick, and the integrated `x` never leaves the wall corridor
`[leftLimit, rightLimit]` (no wall bounce), then after the `k`-th tick with
`k >= 11` the velocity `vx` equals exactly 32, and `vx` never exceeds 32 at
any tick. -/
theorem claim_vx_clamp_amended (s : GState) (k : Nat) (h0 : s.vx = 0)
    (hw : ∀ i, i < k →
      leftLimit ≤ (traceR s i).x + Int.tdiv (traceR s i).vx 2 ∧
      (traceR s i).x + Int.tdiv (traceR s i).vx 2 ≤ rightLimit)
    (hst : ∀ i, i < k → (traceR s (i + 1)).isStanding = true) :
    (11 ≤ k → (traceR s k).vx = 32) ∧ (∀ i, i ≤ k → (traceR s i).vx ≤ 32) := by
  have h := traceR_vx s k h0 hw hst
  constructor
  · intro hk
    rw [h k (le_refl k)]
    have hk' : (11:Int) ≤ (k:Int) := by exact_mod_cast hk
    omega
  · intro i hi
    rw [h i hi]
    omega

/-- Witness for C9 from the wall-free standing state `baseState`. -/
theorem claim_vx_clamp_amended_witness :
    (traceR baseState 11).vx = 32 :=
  (claim_vx_clamp_amended baseState 11 (by decide) (by decide) (by decide)).1 (by decide)
